import Mathlib

/-!
A verification development for the network-service descriptor synthesis and
the default auto-instrumentation builder of the amazon-cloudwatch-agent
operator.  The Go sources embedded here are
`internal/manifests/collector/service.go` (the port-set resolver and the
three service-descriptor builders) and the instrumentation defaulter
(`getDefaultInstrumentation`).  Go maps are embedded extensionally as
functions `String → Option String` (resp. membership predicates
`Int → Bool` / `String → Bool` for the port-number and port-name sets);
fallible Go functions returning `(T, error)` become `Option`/`Except`
values; the ambient environment (`os.LookupEnv`) and the external
configuration-parsing collaborators are explicit function parameters.
-/

/-- A string-keyed Go map, embedded extensionally. -/
abbrev StrMap := String → Option String

/-- Modelled from the spec: the closed set of operating modes of a workload
specification ("Deployment-like" vs "DaemonSet-like" and the other members
of the small closed set); the defining Go type `v1alpha1.Mode` is not among
the provided sources. -/
inductive Mode where
  | deployment
  | daemonset
  | statefulset
  | sidecar
  deriving DecidableEq

/-- The parts of `corev1.ServicePort` the embedded code reads or writes: a
name, a numeric port (`int32` in Go, embedded as `Int`), and transport
metadata (protocol and target port) carried through unchanged. -/
structure ServicePort where
  name : String
  port : Int
  protocol : String
  targetPort : Int
  deriving DecidableEq

/-- The fields of the workload specification (`OtelCol.Spec`) the embedded
code reads: image, operating mode, explicit port list and the raw
configuration text. -/
structure OtelColSpec where
  image : String
  mode : Mode
  ports : List ServicePort
  config : String

/-- The workload custom resource (`params.OtelCol`): identity, annotation
map and its specification. -/
structure OtelCol where
  name : String
  ns : String
  annotations : StrMap
  spec : OtelColSpec

/-- The parameters handed to the builders (`manifests.Params`); the logger
carried by the Go struct is dropped because the embedded code is pure. -/
structure Params where
  otelCol : OtelCol

/-- `corev1.ServiceInternalTrafficPolicy`: cluster-wide or local routing. -/
inductive InternalTrafficPolicy where
  | Cluster
  | Local
  deriving DecidableEq

/-- The parts of `corev1.Service` the embedded code constructs: identity,
label set, annotation set, selector, cluster IP, internal traffic policy
and the port list. -/
structure CoreService where
  name : String
  ns : String
  labels : StrMap
  annotations : StrMap
  selector : StrMap
  clusterIP : String
  internalTrafficPolicy : Option InternalTrafficPolicy
  ports : List ServicePort

/-- Modelled from the spec: the component constant used for label and
selector derivation; its defining Go file is not among the provided
sources. -/
def ComponentAmazonCloudWatchAgent : String := "amazon-cloudwatch-agent"

namespace naming

/-- Modelled from the spec: the base service name is derived
deterministically from the workload name; the Go `naming` package is not
among the provided sources. -/
def Service (otelColName : String) : String := otelColName

/-- Modelled from the spec: the headless variant's name is a
suffix/transform of the base name; the Go `naming` package is not among the
provided sources. -/
def HeadlessService (otelColName : String) : String := otelColName ++ "-headless"

/-- Modelled from the spec: the monitoring variant's name is derived
deterministically from the workload name; the Go `naming` package is not
among the provided sources. -/
def MonitoringService (otelColName : String) : String := otelColName ++ "-monitoring"

end naming

namespace manifestutils

/-- Modelled from the spec: labels are derived deterministically from the
workload identity, the resource name, the image and the component; the Go
`manifestutils` package is not among the provided sources. -/
def Labels (instanceName resourceName image component : String) : StrMap :=
  fun k =>
    if k = "app.kubernetes.io/managed-by" then some "amazon-cloudwatch-agent-operator"
    else if k = "app.kubernetes.io/instance" then some instanceName
    else if k = "app.kubernetes.io/name" then some resourceName
    else if k = "app.kubernetes.io/version" then some image
    else if k = "app.kubernetes.io/component" then some component
    else none

/-- Modelled from the spec: the selector matches the workload, derived
deterministically from its identity and the component; the Go
`manifestutils` package is not among the provided sources. -/
def SelectorLabels (instanceName component : String) : StrMap :=
  fun k =>
    if k = "app.kubernetes.io/instance" then some instanceName
    else if k = "app.kubernetes.io/component" then some component
    else none

end manifestutils

/-- service.go line 23: the label key marking the headless variant. -/
def headlessLabel : String := "operator.opentelemetry.io/collector-headless-service"

/-- service.go line 24: the headless label's value. -/
def headlessExists : String := "Exists"

/-- service.go line 38: the key of the synthesized TLS serving-certificate
annotation (inlined in the Go source, named here for reuse). -/
def servingCertKey : String := "service.beta.openshift.io/serving-cert-secret-name"

/-- service.go lines 161-171, `extractPortNumbersAndNames`: build the
membership set of port numbers and the membership set of port names of a
port list.  The two Go maps `map[int32]bool` / `map[string]bool` are
embedded as membership predicates, the loop as a fold performing the two
insertions. -/
def extractPortNumbersAndNames (ports : List ServicePort) : (Int → Bool) × (String → Bool) :=
  ports.foldl
    (fun acc port =>
      (fun n => if n = port.port then true else acc.1 n,
       fun s => if s = port.name then true else acc.2 s))
    (fun _ => false, fun _ => false)

/-- service.go line 143: the synthesized fallback name
`fmt.Sprintf("port-%d", candidate.Port)`. -/
def fallbackName (n : Int) : String := "port-" ++ toString n

/-- service.go lines 135-159, `filterPort`: drop an inferred candidate
whose number is taken; rename it to the fallback name when its name is
taken and the fallback name is free; drop it when both are taken; keep it
unchanged otherwise.  The logger parameter is dropped (the Go function only
logs). -/
def filterPort (candidate : ServicePort) (portNumbers : Int → Bool)
    (portNames : String → Bool) : Option ServicePort :=
  if portNumbers candidate.port then none
  else
    if portNames candidate.name then
      if portNames (fallbackName candidate.port) then none
      else some { candidate with name := fallbackName candidate.port }
    else some candidate

/-- service.go lines 86-105: the port-computation block of `Service` (the
port-set resolver).  The built-in default list `constants.CloudwatchAgentPorts`
(declared in a Go file that is not among the provided sources) enters as the
`inferredPorts` parameter; `declaredPorts` is `params.OtelCol.Spec.Ports`.
When ports are declared, each inferred port is filtered against the declared
numbers and names and the survivors are appended after the declared ports;
otherwise the inferred list is used directly. -/
def resolvePorts (inferredPorts declaredPorts : List ServicePort) : List ServicePort :=
  if declaredPorts.length > 0 then
    let pn := extractPortNumbersAndNames declaredPorts
    let resultingInferredPorts :=
      inferredPorts.filterMap (fun inferred => filterPort inferred pn.1 pn.2)
    declaredPorts ++ resultingInferredPorts
  else inferredPorts

/-- service.go lines 82-133, `Service`: the base builder.  Returns the Go
pair `(*corev1.Service, error)` as `Option CoreService × Option String`;
the source returns `nil, nil` when the resolved port list is empty and
never returns a non-nil error. -/
def Service (cloudwatchAgentPorts : List ServicePort) (params : Params) :
    Option CoreService × Option String :=
  let name := naming.Service params.otelCol.name
  let labels := manifestutils.Labels params.otelCol.name name params.otelCol.spec.image
    ComponentAmazonCloudWatchAgent
  let ports := resolvePorts cloudwatchAgentPorts params.otelCol.spec.ports
  if ports.length = 0 then (none, none)
  else
    let trafficPolicy :=
      if params.otelCol.spec.mode = Mode.daemonset then InternalTrafficPolicy.Local
      else InternalTrafficPolicy.Cluster
    (some
      { name := naming.Service params.otelCol.name
        ns := params.otelCol.ns
        labels := labels
        annotations := params.otelCol.annotations
        selector := manifestutils.SelectorLabels params.otelCol.name ComponentAmazonCloudWatchAgent
        clusterIP := ""
        internalTrafficPolicy := some trafficPolicy
        ports := ports }, none)

/-- service.go lines 27-47, `HeadlessService`: delegate to `Service`;
propagate a nil service or an error unchanged; otherwise rename to the
headless name, add the headless label, seed a fresh annotation map with the
synthesized TLS serving-certificate entry and copy the existing annotations
over it, and set `ClusterIP` to "None". -/
def HeadlessService (cloudwatchAgentPorts : List ServicePort) (params : Params) :
    Option CoreService × Option String :=
  match Service cloudwatchAgentPorts params with
  | (none, err) => (none, err)
  | (some h, some err) => (some h, some err)
  | (some h, none) =>
    let newName := naming.HeadlessService params.otelCol.name
    let newLabels : StrMap := fun k => if k = headlessLabel then some headlessExists else h.labels k
    let newAnnotations : StrMap := fun k =>
      match h.annotations k with
      | some v => some v
      | none => if k = servingCertKey then some (newName ++ "-tls") else none
    (some
      { h with
        name := newName
        labels := newLabels
        annotations := newAnnotations
        clusterIP := "None" }, none)

/-- service.go lines 49-80, `MonitoringService`: parse the specification's
configuration text and derive the metrics port through the two external
collaborator operations (`adapters.ConfigFromString` and
`adapters.ConfigToMetricsPort`, consumed at the interface boundary and
passed here as explicit function parameters over an arbitrary structured
configuration type); any failure is returned as the error; otherwise build
the descriptor with the single "monitoring" port. -/
def MonitoringService {Config : Type} (configFromString : String → Except String Config)
    (configToMetricsPort : Config → Except String Int) (params : Params) :
    Option CoreService × Option String :=
  let name := naming.MonitoringService params.otelCol.name
  let labels := manifestutils.Labels params.otelCol.name name params.otelCol.spec.image
    ComponentAmazonCloudWatchAgent
  match configFromString params.otelCol.spec.config with
  | .error e => (none, some e)
  | .ok c =>
    match configToMetricsPort c with
    | .error e => (none, some e)
    | .ok metricsPort =>
      (some
        { name := name
          ns := params.otelCol.ns
          labels := labels
          annotations := params.otelCol.annotations
          selector := manifestutils.SelectorLabels params.otelCol.name ComponentAmazonCloudWatchAgent
          clusterIP := ""
          internalTrafficPolicy := none
          ports := [⟨"monitoring", metricsPort, "", 0⟩] }, none)

/-- `corev1.EnvVar`: one name/value environment entry. -/
structure EnvVar where
  name : String
  value : String
  deriving DecidableEq

/-- `v1alpha1.Propagator`: the four propagator values the defaulter uses. -/
inductive Propagator where
  | TraceContext
  | Baggage
  | B3
  | XRay
  deriving DecidableEq

/-- `v1alpha1.Java`: the Java runtime block (image and ordered env list). -/
structure Java where
  image : String
  env : List EnvVar
  deriving DecidableEq

/-- `v1alpha1.Python`: the Python runtime block (image and ordered env list). -/
structure Python where
  image : String
  env : List EnvVar
  deriving DecidableEq

/-- `v1alpha1.InstrumentationSpec`: propagator list and the two runtime
blocks. -/
structure InstrumentationSpec where
  propagators : List Propagator
  java : Java
  python : Python
  deriving DecidableEq

/-- `v1alpha1.Instrumentation`: type metadata, identity and spec (the empty
status struct of the Go literal carries no data and is dropped). -/
structure Instrumentation where
  apiVersion : String
  kind : String
  name : String
  ns : String
  spec : InstrumentationSpec
  deriving DecidableEq

/-- Instrumentation defaulter constant (part_000 line 17). -/
def defaultAPIVersion : String := "cloudwatch.aws.amazon.com/v1alpha1"

/-- Instrumentation defaulter constant (part_000 line 18). -/
def defaultInstrumenation : String := "java-instrumentation"

/-- Instrumentation defaulter constant (part_000 line 19). -/
def defaultNamespace : String := "default"

/-- Instrumentation defaulter constant (part_000 line 20). -/
def defaultKind : String := "Instrumentation"

/-- Env entry key (part_000 line 22). -/
def otelSampleEnabledKey : String := "OTEL_SMP_ENABLED"

/-- Env entry value (part_000 line 23). -/
def otelSampleEnabledDefaultValue : String := "true"

/-- Env entry key (part_000 line 24). -/
def otelTracesSamplerArgKey : String := "OTEL_TRACES_SAMPLER_ARG"

/-- Env entry value (part_000 line 25). -/
def otelTracesSamplerArgDefaultValue : String := "endpoint=http://cloudwatch-agent.amazon-cloudwatch:2000"

/-- Env entry key (part_000 line 26). -/
def otelTracesSamplerKey : String := "OTEL_TRACES_SAMPLER"

/-- Env entry value (part_000 line 27). -/
def otelTracesSamplerDefaultValue : String := "xray"

/-- Env entry key (part_000 line 28). -/
def otelExporterOtlpProtocolKey : String := "OTEL_EXPORTER_OTLP_PROTOCOL"

/-- Env entry value (part_000 line 29). -/
def otelExporterOtlpProtocolValue : String := "http/protobuf"

/-- Env entry key (part_000 line 30). -/
def otelExporterTracesEndpointKey : String := "OTEL_EXPORTER_OTLP_TRACES_ENDPOINT"

/-- Env entry value (part_000 line 31). -/
def otelExporterTracesEndpointDefaultValue : String := "http://cloudwatch-agent.amazon-cloudwatch:4316/v1/traces"

/-- Env entry key (part_000 line 32). -/
def otelExporterSmpEndpointKey : String := "OTEL_AWS_SMP_EXPORTER_ENDPOINT"

/-- Env entry value (part_000 line 33). -/
def otelExporterSmpEndpointDefaultValue : String := "http://cloudwatch-agent.amazon-cloudwatch:4315"

/-- Env entry key (part_000 line 34). -/
def otelExporterMetricKey : String := "OTEL_METRICS_EXPORTER"

/-- Env entry value (part_000 line 35). -/
def otelExporterMetricDefaultValue : String := "none"

/-- Env entry key (part_000 line 37). -/
def otelPythonDistro : String := "OTEL_PYTHON_DISTRO"

/-- Env entry value (part_000 line 38). -/
def otelPythonDistroDefaultValue : String := "aws_distro"

/-- Env entry key (part_000 line 39). -/
def otelPythonConfigurator : String := "OTEL_PYTHON_CONFIGURATOR"

/-- Env entry value (part_000 line 40). -/
def otelPythonConfiguratorDefaultValue : String := "aws_configurator"

/-- part_000 lines 43-97, `getDefaultInstrumentation`: require the two image
references from the ambient environment (`os.LookupEnv`, passed here as the
explicit `lookupEnv` parameter), failing with a descriptive error naming the
missing one; with both present build the fixed descriptor with the four
propagators and the two runtime env lists. -/
def getDefaultInstrumentation (lookupEnv : String → Option String) :
    Except String Instrumentation :=
  match lookupEnv "AUTO_INSTRUMENTATION_JAVA" with
  | none => .error "unable to determine java instrumentation image"
  | some javaInstrumentationImage =>
    match lookupEnv "AUTO_INSTRUMENTATION_PYTHON" with
    | none => .error "unable to determine python instrumentation image"
    | some pythonInstrumentationImage =>
      .ok
        { apiVersion := defaultAPIVersion
          kind := defaultKind
          name := defaultInstrumenation
          ns := defaultNamespace
          spec :=
            { propagators := [Propagator.TraceContext, Propagator.Baggage,
                Propagator.B3, Propagator.XRay]
              java :=
                { image := javaInstrumentationImage
                  env :=
                    [⟨otelSampleEnabledKey, otelSampleEnabledDefaultValue⟩,
                     ⟨otelTracesSamplerArgKey, otelTracesSamplerArgDefaultValue⟩,
                     ⟨otelTracesSamplerKey, otelTracesSamplerDefaultValue⟩,
                     ⟨otelExporterOtlpProtocolKey, otelExporterOtlpProtocolValue⟩,
                     ⟨otelExporterTracesEndpointKey, otelExporterTracesEndpointDefaultValue⟩,
                     ⟨otelExporterSmpEndpointKey, otelExporterSmpEndpointDefaultValue⟩,
                     ⟨otelExporterMetricKey, otelExporterMetricDefaultValue⟩] }
              python :=
                { image := pythonInstrumentationImage
                  env :=
                    [⟨otelSampleEnabledKey, otelSampleEnabledDefaultValue⟩,
                     ⟨otelTracesSamplerArgKey, otelTracesSamplerArgDefaultValue⟩,
                     ⟨otelExporterOtlpProtocolKey, otelExporterOtlpProtocolValue⟩,
                     ⟨otelExporterTracesEndpointKey, otelExporterTracesEndpointDefaultValue⟩,
                     ⟨otelExporterSmpEndpointKey, otelExporterSmpEndpointDefaultValue⟩,
                     ⟨otelExporterMetricKey, otelExporterMetricDefaultValue⟩,
                     ⟨otelPythonDistro, otelPythonDistroDefaultValue⟩,
                     ⟨otelPythonConfigurator, otelPythonConfiguratorDefaultValue⟩] } } }

/-- A concrete workload specification with no declared ports and no
annotations, used to instantiate universally quantified theorems. -/
def params0 : Params :=
  ⟨⟨"agent", "amazon-cloudwatch", fun _ => none, ⟨"img", Mode.deployment, [], ""⟩⟩⟩

/-- A concrete DaemonSet-mode workload specification with one declared
port. -/
def params1 : Params :=
  ⟨⟨"agent", "amazon-cloudwatch", fun _ => none,
    ⟨"img", Mode.daemonset, [⟨"web", 80, "TCP", 80⟩], ""⟩⟩⟩

/-- A concrete workload specification that already carries the OpenShift
serving-certificate annotation with its own value. -/
def params8 : Params :=
  ⟨⟨"agent", "amazon-cloudwatch",
    (fun k => if k = servingCertKey then some "customer-secret" else none),
    ⟨"img", Mode.deployment, [⟨"web", 80, "TCP", 80⟩], ""⟩⟩⟩

/-- A concrete environment carrying both required instrumentation image
references. -/
def instEnv0 : String → Option String := fun k =>
  if k = "AUTO_INSTRUMENTATION_JAVA" then some "java-image"
  else if k = "AUTO_INSTRUMENTATION_PYTHON" then some "python-image"
  else none

/-- The numeric value of a decimal digit string (10 here matches the base
used by `Nat.repr`, which renders the `%d` of the Go fallback name). -/
def digitsVal (cs : List Char) : Nat :=
  cs.foldl (fun a c => 10 * a + (c.toNat - 48)) 0

theorem digitChar_toNat (k : Nat) (hk : k < 10) : (Nat.digitChar k).toNat = 48 + k := by
  interval_cases k <;> decide

theorem toDigitsCore_append (b fuel : Nat) :
    ∀ (n : Nat) (ds : List Char),
      Nat.toDigitsCore b fuel n ds = Nat.toDigitsCore b fuel n [] ++ ds := by
  induction fuel with
  | zero => intro n ds; simp [Nat.toDigitsCore]
  | succ f ih =>
    intro n ds
    simp only [Nat.toDigitsCore]
    by_cases h : n / b = 0
    · simp [h]
    · simp only [if_neg h]
      rw [ih (n / b) (Nat.digitChar (n % b) :: ds), ih (n / b) [Nat.digitChar (n % b)]]
      simp

theorem digitsVal_append_single (xs : List Char) (d : Char) :
    digitsVal (xs ++ [d]) = 10 * digitsVal xs + (d.toNat - 48) := by
  simp [digitsVal, List.foldl_append]

theorem toDigitsCore_val (fuel : Nat) :
    ∀ n, n < 10 ^ fuel → digitsVal (Nat.toDigitsCore 10 fuel n []) = n := by
  induction fuel with
  | zero =>
    intro n hn
    interval_cases n
    rfl
  | succ f ih =>
    intro n hn
    simp only [Nat.toDigitsCore]
    by_cases h : n / 10 = 0
    · have hlt : n < 10 := (Nat.div_eq_zero_iff (by norm_num)).mp h
      have hmod : n % 10 = n := Nat.mod_eq_of_lt hlt
      rw [if_pos h, hmod]
      simp only [digitsVal, List.foldl_cons, List.foldl_nil]
      rw [digitChar_toNat n (by omega)]
      omega
    · rw [if_neg h]
      rw [toDigitsCore_append, digitsVal_append_single]
      have hdiv : n / 10 < 10 ^ f := by
        have h10 : n < 10 ^ f * 10 := by
          rw [pow_succ] at hn; exact hn
        exact (Nat.div_lt_iff_lt_mul (by norm_num)).mpr h10
      rw [ih (n / 10) hdiv, digitChar_toNat (n % 10) (by omega)]
      omega

theorem toDigits_injective {m n : Nat} (h : Nat.toDigits 10 m = Nat.toDigits 10 n) : m = n := by
  have hm : m < 10 ^ (m + 1) :=
    lt_of_lt_of_le (Nat.lt_pow_self (by norm_num) m) (Nat.pow_le_pow_right (by norm_num) (Nat.le_succ m))
  have hn : n < 10 ^ (n + 1) :=
    lt_of_lt_of_le (Nat.lt_pow_self (by norm_num) n) (Nat.pow_le_pow_right (by norm_num) (Nat.le_succ n))
  have h1 := toDigitsCore_val (m + 1) m hm
  have h2 := toDigitsCore_val (n + 1) n hn
  rw [show Nat.toDigitsCore 10 (m + 1) m [] = Nat.toDigits 10 m from rfl, h] at h1
  rw [show Nat.toDigitsCore 10 (n + 1) n [] = Nat.toDigits 10 n from rfl] at h2
  omega

theorem natRepr_injective {m n : Nat} (h : Nat.repr m = Nat.repr n) : m = n :=
  toDigits_injective (congrArg String.data h)

theorem toDigitsCore_mem_ge (fuel : Nat) :
    ∀ (n : Nat) (ds : List Char) (c : Char), (∀ x ∈ ds, 48 ≤ x.toNat) →
      c ∈ Nat.toDigitsCore 10 fuel n ds → 48 ≤ c.toNat := by
  induction fuel with
  | zero =>
    intro n ds c hds hc
    exact hds c hc
  | succ f ih =>
    intro n ds c hds hc
    simp only [Nat.toDigitsCore] at hc
    by_cases h : n / 10 = 0
    · rw [if_pos h] at hc
      rcases List.mem_cons.mp hc with rfl | hmem
      · rw [digitChar_toNat (n % 10) (by omega)]; omega
      · exact hds c hmem
    · rw [if_neg h] at hc
      refine ih (n / 10) _ c ?_ hc
      intro x hx
      rcases List.mem_cons.mp hx with rfl | hmem
      · rw [digitChar_toNat (n % 10) (by omega)]; omega
      · exact hds x hmem

theorem natRepr_ne_neg (m k : Nat) : Nat.repr m ≠ "-" ++ Nat.repr k := by
  intro h
  have hd : Nat.toDigits 10 m = ['-'] ++ Nat.toDigits 10 k := by
    have h2 := congrArg String.data h
    rw [String.data_append] at h2
    exact h2
  have hmem : '-' ∈ Nat.toDigits 10 m := by
    rw [hd]; exact List.mem_cons_self _ _
  have h48 := toDigitsCore_mem_ge (m + 1) m [] '-' (by intro x hx; cases hx) hmem
  have : ('-').toNat = 45 := rfl
  omega

theorem string_data_inj {s t : String} (h : s.data = t.data) : s = t := by
  exact congrArg String.mk h

theorem intToString_injective {i j : Int} (h : toString i = toString j) : i = j := by
  cases i with
  | ofNat m =>
    cases j with
    | ofNat n => exact congrArg Int.ofNat (natRepr_injective h)
    | negSucc n => exact absurd h (natRepr_ne_neg m (n + 1))
  | negSucc m =>
    cases j with
    | ofNat n => exact absurd h.symm (natRepr_ne_neg n (m + 1))
    | negSucc n =>
      have h2 : (['-'] ++ Nat.toDigits 10 (m + 1) : List Char) = ['-'] ++ Nat.toDigits 10 (n + 1) := by
        have := congrArg String.data h
        rw [show (toString (Int.negSucc m)) = "-" ++ Nat.repr (m + 1) from rfl,
            show (toString (Int.negSucc n)) = "-" ++ Nat.repr (n + 1) from rfl,
            String.data_append, String.data_append] at this
        exact this
      have h3 := List.append_cancel_left h2
      have h4 := toDigits_injective h3
      exact congrArg Int.negSucc (by omega)

theorem fallbackName_injective {i j : Int} (h : fallbackName i = fallbackName j) : i = j := by
  apply intToString_injective
  have h2 := congrArg String.data h
  simp only [fallbackName, String.data_append] at h2
  exact string_data_inj (List.append_cancel_left h2)
theorem extractPortNumbersAndNames_fst (ports : List ServicePort) (n : Int) :
    (extractPortNumbersAndNames ports).1 n = true ↔ ∃ p ∈ ports, p.port = n := by
  suffices h : ∀ (acc : (Int → Bool) × (String → Bool)),
      (ports.foldl (fun (acc : (Int → Bool) × (String → Bool)) port =>
        (fun x => if x = port.port then true else acc.1 x,
         fun s => if s = port.name then true else acc.2 s)) acc).1 n = true ↔
        (acc.1 n = true ∨ ∃ p ∈ ports, p.port = n) by
    rw [extractPortNumbersAndNames, h]
    simp
  induction ports with
  | nil => intro acc; simp
  | cons p ps ih =>
    intro acc
    rw [List.foldl_cons, ih]
    constructor
    · rintro (h | ⟨q, hq, rfl⟩)
      · dsimp at h
        by_cases hn : n = p.port
        · exact Or.inr ⟨p, List.mem_cons_self p ps, hn.symm⟩
        · rw [if_neg hn] at h
          exact Or.inl h
      · exact Or.inr ⟨q, List.mem_cons_of_mem p hq, rfl⟩
    · rintro (h | ⟨q, hq, rfl⟩)
      · dsimp
        by_cases hn : n = p.port
        · rw [if_pos hn]; exact Or.inl rfl
        · rw [if_neg hn]; exact Or.inl h
      · rcases List.mem_cons.mp hq with rfl | hq'
        · left; dsimp; rw [if_pos rfl]
        · exact Or.inr ⟨q, hq', rfl⟩

theorem extractPortNumbersAndNames_snd (ports : List ServicePort) (s : String) :
    (extractPortNumbersAndNames ports).2 s = true ↔ ∃ p ∈ ports, p.name = s := by
  suffices h : ∀ (acc : (Int → Bool) × (String → Bool)),
      (ports.foldl (fun (acc : (Int → Bool) × (String → Bool)) port =>
        (fun x => if x = port.port then true else acc.1 x,
         fun t => if t = port.name then true else acc.2 t)) acc).2 s = true ↔
        (acc.2 s = true ∨ ∃ p ∈ ports, p.name = s) by
    rw [extractPortNumbersAndNames, h]
    simp
  induction ports with
  | nil => intro acc; simp
  | cons p ps ih =>
    intro acc
    rw [List.foldl_cons, ih]
    constructor
    · rintro (h | ⟨q, hq, rfl⟩)
      · dsimp at h
        by_cases hn : s = p.name
        · exact Or.inr ⟨p, List.mem_cons_self p ps, hn.symm⟩
        · rw [if_neg hn] at h
          exact Or.inl h
      · exact Or.inr ⟨q, List.mem_cons_of_mem p hq, rfl⟩
    · rintro (h | ⟨q, hq, rfl⟩)
      · dsimp
        by_cases hn : s = p.name
        · rw [if_pos hn]; exact Or.inl rfl
        · rw [if_neg hn]; exact Or.inl h
      · rcases List.mem_cons.mp hq with rfl | hq'
        · left; dsimp; rw [if_pos rfl]
        · exact Or.inr ⟨q, hq', rfl⟩

theorem filterPort_eq_some {candidate s : ServicePort} {portNumbers : Int → Bool}
    {portNames : String → Bool} (h : filterPort candidate portNumbers portNames = some s) :
    s.port = candidate.port ∧ portNumbers candidate.port = false ∧
      portNames s.name = false ∧
      ((s.name = candidate.name ∧ portNames candidate.name = false) ∨
       (s.name = fallbackName candidate.port ∧ portNames candidate.name = true ∧
         portNames (fallbackName candidate.port) = false)) := by
  unfold filterPort at h
  by_cases h1 : portNumbers candidate.port = true
  · rw [if_pos h1] at h; cases h
  · rw [if_neg h1] at h
    by_cases h2 : portNames candidate.name = true
    · rw [if_pos h2] at h
      by_cases h3 : portNames (fallbackName candidate.port) = true
      · rw [if_pos h3] at h; cases h
      · rw [if_neg h3] at h
        obtain rfl := Option.some.inj h
        refine ⟨rfl, by simpa using h1, by simpa using h3, Or.inr ⟨rfl, h2, by simpa using h3⟩⟩
    · rw [if_neg h2] at h
      obtain rfl := Option.some.inj h
      exact ⟨rfl, by simpa using h1, by simpa using h2, Or.inl ⟨rfl, by simpa using h2⟩⟩

theorem pairwise_filterMap_of {α β : Type} (f : α → Option β) {R : α → α → Prop}
    {S : β → β → Prop} (H : ∀ a b a' b', f a = some a' → f b = some b' → R a b → S a' b') :
    ∀ {l : List α}, l.Pairwise R → (l.filterMap f).Pairwise S := by
  intro l
  induction l with
  | nil => intro _; simp
  | cons a l ih =>
    intro hp
    rcases List.pairwise_cons.mp hp with ⟨ha, hl⟩
    rcases hfa : f a with _ | b
    · rw [List.filterMap_cons, hfa]
      exact ih hl
    · rw [List.filterMap_cons, hfa]
      refine List.pairwise_cons.mpr ⟨?_, ih hl⟩
      intro b' hb'
      rcases List.mem_filterMap.mp hb' with ⟨x, hx, hfx⟩
      exact H a x b b' hfa hfx (ha x hx)

theorem Service_error_none (cloudwatchAgentPorts : List ServicePort) (params : Params) :
    (Service cloudwatchAgentPorts params).2 = none := by
  unfold Service
  by_cases h : (resolvePorts cloudwatchAgentPorts params.otelCol.spec.ports).length = 0
  · rw [if_pos h]
  · rw [if_neg h]

theorem Service_some_annotations (cloudwatchAgentPorts : List ServicePort) (params : Params)
    (b : CoreService) (h : (Service cloudwatchAgentPorts params).1 = some b) :
    b.annotations = params.otelCol.annotations := by
  unfold Service at h
  by_cases hl : (resolvePorts cloudwatchAgentPorts params.otelCol.spec.ports).length = 0
  · rw [if_pos hl] at h; cases h
  · rw [if_neg hl] at h
    obtain rfl := Option.some.inj h
    rfl
/-- C1 (amended): the resolver's output has no two entries sharing a numeric
port and no two sharing a name, provided the declared port list itself has
no two entries sharing a number or a name, the inferred port list has no two
entries sharing a number or a name, and no inferred entry's name coincides
with the fallback name `port-<number>` of a different inferred entry.  (As
stated over all inputs the claim fails: a declared list carrying duplicates
is copied verbatim into the output, see the counterexample.) -/
theorem C1_resolved_ports_nodup (inferredPorts declaredPorts : List ServicePort)
    (hd : declaredPorts.Pairwise (fun p q => p.port ≠ q.port ∧ p.name ≠ q.name))
    (hi : inferredPorts.Pairwise (fun p q => p.port ≠ q.port ∧ p.name ≠ q.name))
    (hif : ∀ p ∈ inferredPorts, ∀ q ∈ inferredPorts,
      p.port ≠ q.port → p.name ≠ fallbackName q.port) :
    (resolvePorts inferredPorts declaredPorts).Pairwise
      (fun p q => p.port ≠ q.port ∧ p.name ≠ q.name) := by
  unfold resolvePorts
  by_cases hlen : declaredPorts.length > 0
  · rw [if_pos hlen]
    show (declaredPorts ++ inferredPorts.filterMap _).Pairwise _
    rw [List.pairwise_append]
    refine ⟨hd, ?_, ?_⟩
    · have hi' : inferredPorts.Pairwise (fun p q =>
          (p.port ≠ q.port ∧ p.name ≠ q.name) ∧ p.name ≠ fallbackName q.port ∧
            q.name ≠ fallbackName p.port) := by
        refine hi.imp_of_mem ?_
        intro p q hp hq hpq
        exact ⟨hpq, hif p hp q hq hpq.1, hif q hq p hp (Ne.symm hpq.1)⟩
      refine pairwise_filterMap_of _ ?_ hi'
      intro a b a' b' hfa hfb hR
      obtain ⟨hap, _, _, haname⟩ := filterPort_eq_some hfa
      obtain ⟨hbp, _, _, hbname⟩ := filterPort_eq_some hfb
      constructor
      · rw [hap, hbp]; exact hR.1.1
      · rcases haname with ⟨ha1, _⟩ | ⟨ha1, _, _⟩ <;>
          rcases hbname with ⟨hb1, _⟩ | ⟨hb1, _, _⟩ <;> rw [ha1, hb1]
        · exact hR.1.2
        · exact hR.2.1
        · exact fun hcon => hR.2.2 hcon.symm
        · exact fun hcon => hR.1.1 (fallbackName_injective hcon)
    · intro d hdmem x hxmem
      rcases List.mem_filterMap.mp hxmem with ⟨i, himem, hfi⟩
      obtain ⟨hxp, hnum, hname, _⟩ := filterPort_eq_some hfi
      constructor
      · intro hcon
        have hmem : (extractPortNumbersAndNames declaredPorts).1 i.port = true :=
          (extractPortNumbersAndNames_fst _ _).mpr ⟨d, hdmem, by rw [hcon, hxp]⟩
        rw [hmem] at hnum
        cases hnum
      · intro hcon
        have hmem : (extractPortNumbersAndNames declaredPorts).2 x.name = true :=
          (extractPortNumbersAndNames_snd _ _).mpr ⟨d, hdmem, hcon⟩
        rw [hmem] at hname
        cases hname
  · rw [if_neg hlen]
    exact hi

/-- C1 (counterexample): on a declared list whose two entries share both the
number 1 and the name "a" and an empty inferred list, the resolver's output
is that list verbatim, so the no-duplicate invariant fails as universally
stated. -/
theorem C1_counterexample :
    ¬ (resolvePorts [] [⟨"a", 1, "", 0⟩, ⟨"a", 1, "", 0⟩]).Pairwise
      (fun p q => p.port ≠ q.port ∧ p.name ≠ q.name) := by
  decide

/-- Witness: the amended no-duplicate invariant at the spec's own collision
example (declared `metrics:8888`, inferred `metrics:4317`). -/
theorem C1_resolved_ports_nodup_witness :
    (resolvePorts [⟨"metrics", 4317, "", 0⟩] [⟨"metrics", 8888, "", 0⟩]).Pairwise
      (fun p q => p.port ≠ q.port ∧ p.name ≠ q.name) :=
  C1_resolved_ports_nodup _ _ (by decide) (by decide) (by decide)
/-- C3: for every declared list D and inferred list I, the resolver's output
is exactly D (verbatim, in order) followed by the surviving, possibly
renamed, inferred ports in their original relative order (the filterMap of
`filterPort` against D's number and name sets); with an empty D this prefix
is empty and every inferred port survives unchanged. -/
theorem C3_resolver_output_shape (inferredPorts declaredPorts : List ServicePort) :
    resolvePorts inferredPorts declaredPorts =
      declaredPorts ++ inferredPorts.filterMap (fun inferred =>
        filterPort inferred (extractPortNumbersAndNames declaredPorts).1
          (extractPortNumbersAndNames declaredPorts).2) := by
  unfold resolvePorts
  by_cases hlen : declaredPorts.length > 0
  · rw [if_pos hlen]
  · rw [if_neg hlen]
    have hnil : declaredPorts = [] := List.length_eq_zero.mp (by omega)
    subst hnil
    rw [List.nil_append]
    induction inferredPorts with
    | nil => rfl
    | cons i is ih =>
      rw [List.filterMap_cons]
      show i :: is = i :: List.filterMap _ is
      rw [← ih]

/-- C4: filtering an inferred candidate against a declared port list drops
it when its number matches a declared number; otherwise renames it to
`port-<number>` when its name matches a declared name and the fallback is
free, drops it when the fallback also matches a declared name, and keeps it
unchanged when nothing matches; and in every case the base builder returns
no error (dropping never fails the build). -/
theorem C4_filterPort_decision :
    (∀ (declaredPorts : List ServicePort) (candidate : ServicePort),
      filterPort candidate (extractPortNumbersAndNames declaredPorts).1
          (extractPortNumbersAndNames declaredPorts).2 =
        if ∃ d ∈ declaredPorts, d.port = candidate.port then none
        else if ∃ d ∈ declaredPorts, d.name = candidate.name then
          if ∃ d ∈ declaredPorts, d.name = fallbackName candidate.port then none
          else some { candidate with name := fallbackName candidate.port }
        else some candidate) ∧
    (∀ (cloudwatchAgentPorts : List ServicePort) (params : Params),
      (Service cloudwatchAgentPorts params).2 = none) := by
  constructor
  · intro declaredPorts candidate
    by_cases h1 : ∃ d ∈ declaredPorts, d.port = candidate.port
    · have b1 : (extractPortNumbersAndNames declaredPorts).1 candidate.port = true :=
        (extractPortNumbersAndNames_fst _ _).mpr h1
      simp [filterPort, b1, h1]
    · have b1 : (extractPortNumbersAndNames declaredPorts).1 candidate.port = false := by
        rw [← Bool.not_eq_true, extractPortNumbersAndNames_fst]; exact h1
      by_cases h2 : ∃ d ∈ declaredPorts, d.name = candidate.name
      · have b2 : (extractPortNumbersAndNames declaredPorts).2 candidate.name = true :=
          (extractPortNumbersAndNames_snd _ _).mpr h2
        by_cases h3 : ∃ d ∈ declaredPorts, d.name = fallbackName candidate.port
        · have b3 : (extractPortNumbersAndNames declaredPorts).2 (fallbackName candidate.port) = true :=
            (extractPortNumbersAndNames_snd _ _).mpr h3
          simp [filterPort, b1, b2, b3, h1, h2, h3]
        · have b3 : (extractPortNumbersAndNames declaredPorts).2 (fallbackName candidate.port) = false := by
            rw [← Bool.not_eq_true, extractPortNumbersAndNames_snd]; exact h3
          simp [filterPort, b1, b2, b3, h1, h2, h3]
      · have b2 : (extractPortNumbersAndNames declaredPorts).2 candidate.name = false := by
          rw [← Bool.not_eq_true, extractPortNumbersAndNames_snd]; exact h2
        simp [filterPort, b1, b2, h1, h2]
  · exact Service_error_none
/-- C5: the default-instrumentation builder fails with the descriptive
error naming the java image when `AUTO_INSTRUMENTATION_JAVA` is absent,
fails with the one naming the python image when that is present but
`AUTO_INSTRUMENTATION_PYTHON` is absent, and succeeds (returns a
descriptor, never a partial one) whenever both are present — its only two
failure modes. -/
theorem C5_instrumentation_gating (lookupEnv : String → Option String) :
    (lookupEnv "AUTO_INSTRUMENTATION_JAVA" = none →
      getDefaultInstrumentation lookupEnv =
        .error "unable to determine java instrumentation image") ∧
    (∀ j, lookupEnv "AUTO_INSTRUMENTATION_JAVA" = some j →
      lookupEnv "AUTO_INSTRUMENTATION_PYTHON" = none →
      getDefaultInstrumentation lookupEnv =
        .error "unable to determine python instrumentation image") ∧
    (∀ j p', lookupEnv "AUTO_INSTRUMENTATION_JAVA" = some j →
      lookupEnv "AUTO_INSTRUMENTATION_PYTHON" = some p' →
      ∃ inst, getDefaultInstrumentation lookupEnv = .ok inst) := by
  refine ⟨?_, ?_, ?_⟩
  · intro h
    unfold getDefaultInstrumentation
    rw [h]
  · intro j hj hp
    unfold getDefaultInstrumentation
    rw [hj, hp]
  · intro j p' hj hp
    unfold getDefaultInstrumentation
    rw [hj, hp]
    exact ⟨_, rfl⟩

/-- Witness: with an empty environment the builder fails naming the java
image. -/
theorem C5_instrumentation_gating_witness :
    getDefaultInstrumentation (fun _ => none) =
      .error "unable to determine java instrumentation image" :=
  (C5_instrumentation_gating (fun _ => none)).1 rfl

/-- C7: whenever the resolved (merged) port list of a specification is
empty, the base builder returns nil with no error. -/
theorem C7_empty_resolved_ports (cloudwatchAgentPorts : List ServicePort) (params : Params)
    (h : resolvePorts cloudwatchAgentPorts params.otelCol.spec.ports = []) :
    Service cloudwatchAgentPorts params = (none, none) := by
  unfold Service
  rw [h]
  rfl

/-- Witness: a specification with no declared ports and an empty built-in
default port list yields `(nil, nil)`. -/
theorem C7_empty_resolved_ports_witness : Service [] params0 = (none, none) :=
  C7_empty_resolved_ports [] params0 rfl
/-- C9: whenever the base builder returns a service, its internal traffic
policy is Local exactly when the operating mode is DaemonSet, and Cluster
for every other mode. -/
theorem C9_internal_traffic_policy (cloudwatchAgentPorts : List ServicePort) (params : Params)
    (s : CoreService) (h : (Service cloudwatchAgentPorts params).1 = some s) :
    (s.internalTrafficPolicy = some InternalTrafficPolicy.Local ↔
      params.otelCol.spec.mode = Mode.daemonset) ∧
    (s.internalTrafficPolicy = some InternalTrafficPolicy.Cluster ↔
      params.otelCol.spec.mode ≠ Mode.daemonset) := by
  unfold Service at h
  by_cases hl : (resolvePorts cloudwatchAgentPorts params.otelCol.spec.ports).length = 0
  · rw [if_pos hl] at h
    cases h
  · rw [if_neg hl] at h
    obtain rfl := Option.some.inj h
    by_cases hm : params.otelCol.spec.mode = Mode.daemonset
    · simp [hm]
    · simp [hm]

/-- Witness: a DaemonSet-mode specification with one declared port yields a
service whose internal traffic policy is Local. -/
theorem C9_internal_traffic_policy_witness :
    ((Service [] params1).1.map (fun s => s.internalTrafficPolicy)) =
      some (some InternalTrafficPolicy.Local) := by
  cases hs : (Service [] params1).1 with
  | none =>
    have hcon : (Service [] params1).1.isSome = true := rfl
    rw [hs] at hcon
    cases hcon
  | some s =>
    rw [Option.map_some']
    rw [(C9_internal_traffic_policy [] params1 s hs).1.mpr rfl]
/-- C6: the monitoring builder returns the parse error when the
configuration text does not parse, returns the derivation error when no
metrics port can be derived, and otherwise returns a descriptor with
exactly one port named "monitoring" carrying the discovered port, an empty
cluster IP (no cluster address restriction) and the workload selector. -/
theorem C6_monitoring_service {Config : Type} (configFromString : String → Except String Config)
    (configToMetricsPort : Config → Except String Int) (params : Params) :
    (∀ e, configFromString params.otelCol.spec.config = .error e →
      MonitoringService configFromString configToMetricsPort params = (none, some e)) ∧
    (∀ c e, configFromString params.otelCol.spec.config = .ok c →
      configToMetricsPort c = .error e →
      MonitoringService configFromString configToMetricsPort params = (none, some e)) ∧
    (∀ c metricsPort, configFromString params.otelCol.spec.config = .ok c →
      configToMetricsPort c = .ok metricsPort →
      ∃ s, MonitoringService configFromString configToMetricsPort params = (some s, none) ∧
        s.ports = [⟨"monitoring", metricsPort, "", 0⟩] ∧
        s.clusterIP = "" ∧
        s.selector = manifestutils.SelectorLabels params.otelCol.name
          ComponentAmazonCloudWatchAgent) := by
  refine ⟨?_, ?_, ?_⟩
  · intro e he
    unfold MonitoringService
    rw [he]
  · intro c e hc he
    unfold MonitoringService
    rw [hc]
    dsimp only
    rw [he]
  · intro c metricsPort hc hm
    unfold MonitoringService
    rw [hc]
    dsimp only
    rw [hm]
    exact ⟨_, rfl, rfl, rfl, rfl⟩

/-- Witness: with a parser that succeeds and a metrics-port derivation
returning 8888, the monitoring builder returns the single-port
descriptor. -/
theorem C6_monitoring_service_witness :
    ∃ s, MonitoringService (fun _ => Except.ok Unit.unit) (fun _ => Except.ok (8888 : Int))
        params0 = (some s, none) ∧
      s.ports = [⟨"monitoring", 8888, "", 0⟩] ∧
      s.clusterIP = "" ∧
      s.selector = manifestutils.SelectorLabels params0.otelCol.name
        ComponentAmazonCloudWatchAgent :=
  (C6_monitoring_service (fun _ => Except.ok Unit.unit) (fun _ => Except.ok (8888 : Int))
    params0).2.2 Unit.unit 8888 rfl rfl
/-- C8 (amended): when the base builder returns nil the headless builder
propagates that result unchanged; when it returns a service with
annotation set A, the headless descriptor carries the name derived from the
workload name, cluster IP "None", the headless label set to Exists, every
annotation of A, and the serving-cert annotation key — mapped to the
synthesized `<headless-name>-tls` value only when that key is absent from
A (when present, A's value wins; as stated, with the synthesized entry
always contained, the claim fails, see the counterexample). -/
theorem C8_headless_derivation (cloudwatchAgentPorts : List ServicePort) (params : Params) :
    ((Service cloudwatchAgentPorts params).1 = none →
      HeadlessService cloudwatchAgentPorts params = Service cloudwatchAgentPorts params) ∧
    (∀ s, (Service cloudwatchAgentPorts params).1 = some s →
      ∃ h, HeadlessService cloudwatchAgentPorts params = (some h, none) ∧
        h.name = naming.HeadlessService params.otelCol.name ∧
        h.clusterIP = "None" ∧
        h.labels headlessLabel = some headlessExists ∧
        (∀ k v, s.annotations k = some v → h.annotations k = some v) ∧
        h.annotations servingCertKey =
          some ((s.annotations servingCertKey).getD
            (naming.HeadlessService params.otelCol.name ++ "-tls"))) := by
  have hsnd := Service_error_none cloudwatchAgentPorts params
  constructor
  · intro h1
    have hsv : Service cloudwatchAgentPorts params = (none, none) := Prod.ext h1 hsnd
    unfold HeadlessService
    rw [hsv]
  · intro s hs
    have hsv : Service cloudwatchAgentPorts params = (some s, none) := Prod.ext hs hsnd
    unfold HeadlessService
    rw [hsv]
    refine ⟨_, rfl, rfl, rfl, ?_, ?_, ?_⟩
    · show (if headlessLabel = headlessLabel then some headlessExists else s.labels headlessLabel) =
        some headlessExists
      rw [if_pos rfl]
    · intro k v hkv
      show (match s.annotations k with
        | some v' => some v'
        | none => if k = servingCertKey
            then some (naming.HeadlessService params.otelCol.name ++ "-tls") else none) = some v
      rw [hkv]
    · cases hk : s.annotations servingCertKey with
      | none =>
        show (match s.annotations servingCertKey with
          | some v' => some v'
          | none => if servingCertKey = servingCertKey
              then some (naming.HeadlessService params.otelCol.name ++ "-tls") else none) = _
        rw [hk]
        dsimp only
        rw [if_pos rfl]
        rfl
      | some v =>
        show (match s.annotations servingCertKey with
          | some v' => some v'
          | none => if servingCertKey = servingCertKey
              then some (naming.HeadlessService params.otelCol.name ++ "-tls") else none) = _
        rw [hk]
        rfl

/-- C8 (counterexample): on a specification already carrying the
serving-cert annotation with value "customer-secret", the headless result
maps that key to the caller's value, not to the synthesized
`<headless-name>-tls` value, so the claimed "superset of A plus the
synthesized TLS annotation" fails. -/
theorem C8_counterexample :
    ((HeadlessService [] params8).1.map (fun h => h.annotations servingCertKey)) =
        some (some "customer-secret") ∧
    ¬ ((HeadlessService [] params8).1.map
        (fun h => h.annotations servingCertKey == some (h.name ++ "-tls")) = some true) := by
  constructor
  · rfl
  · decide
/-- C10: when the caller's annotation map already carries the serving-cert
key, the headless result maps that key to the caller's value — the
synthesized `<headless-name>-tls` value is overwritten by the copy loop
that runs after the fresh map is seeded with the synthesized entry. -/
theorem C10_caller_serving_cert_value_wins (cloudwatchAgentPorts : List ServicePort)
    (params : Params) (v : String)
    (hv : params.otelCol.annotations servingCertKey = some v)
    (s : CoreService) (hs : (HeadlessService cloudwatchAgentPorts params).1 = some s) :
    s.annotations servingCertKey = some v := by
  have hsnd := Service_error_none cloudwatchAgentPorts params
  cases hsv : (Service cloudwatchAgentPorts params).1 with
  | none =>
    have hfull : Service cloudwatchAgentPorts params = (none, none) := Prod.ext hsv hsnd
    unfold HeadlessService at hs
    rw [hfull] at hs
    cases hs
  | some b =>
    have hb := Service_some_annotations cloudwatchAgentPorts params b hsv
    have hfull : Service cloudwatchAgentPorts params = (some b, none) := Prod.ext hsv hsnd
    unfold HeadlessService at hs
    rw [hfull] at hs
    dsimp only at hs
    obtain rfl := Option.some.inj hs
    show (match b.annotations servingCertKey with
      | some v' => some v'
      | none => if servingCertKey = servingCertKey
          then some (naming.HeadlessService params.otelCol.name ++ "-tls") else none) = some v
    rw [hb, hv]

/-- Witness: on the specification whose serving-cert annotation is
"customer-secret", the headless result carries that value. -/
theorem C10_caller_serving_cert_value_wins_witness :
    ((HeadlessService [] params8).1.map (fun h => h.annotations servingCertKey)) =
      some (some "customer-secret") := by
  cases hs : (HeadlessService [] params8).1 with
  | none =>
    have hcon : (HeadlessService [] params8).1.isSome = true := rfl
    rw [hs] at hcon
    cases hcon
  | some s =>
    rw [Option.map_some']
    rw [C10_caller_serving_cert_value_wins [] params8 "customer-secret" rfl s hs]
/-- C2 (counterexample): with both images present, neither assignment of
the claimed lists fits: the java block does carry the seven claimed entries,
but the python block carries only six of them — it lacks the
sampler-selection entry (`OTEL_TRACES_SAMPLER`) — before its two
distribution/configurator entries, so the claim that both runtime blocks
carry all seven fixed entries fails. -/
theorem C2_counterexample :
    ¬ (((getDefaultInstrumentation instEnv0).map (fun inst => inst.spec.java.env) =
          .ok [⟨otelSampleEnabledKey, otelSampleEnabledDefaultValue⟩,
            ⟨otelTracesSamplerArgKey, otelTracesSamplerArgDefaultValue⟩,
            ⟨otelTracesSamplerKey, otelTracesSamplerDefaultValue⟩,
            ⟨otelExporterOtlpProtocolKey, otelExporterOtlpProtocolValue⟩,
            ⟨otelExporterTracesEndpointKey, otelExporterTracesEndpointDefaultValue⟩,
            ⟨otelExporterSmpEndpointKey, otelExporterSmpEndpointDefaultValue⟩,
            ⟨otelExporterMetricKey, otelExporterMetricDefaultValue⟩] ∧
        (getDefaultInstrumentation instEnv0).map (fun inst => inst.spec.python.env) =
          .ok ([⟨otelSampleEnabledKey, otelSampleEnabledDefaultValue⟩,
            ⟨otelTracesSamplerArgKey, otelTracesSamplerArgDefaultValue⟩,
            ⟨otelTracesSamplerKey, otelTracesSamplerDefaultValue⟩,
            ⟨otelExporterOtlpProtocolKey, otelExporterOtlpProtocolValue⟩,
            ⟨otelExporterTracesEndpointKey, otelExporterTracesEndpointDefaultValue⟩,
            ⟨otelExporterSmpEndpointKey, otelExporterSmpEndpointDefaultValue⟩,
            ⟨otelExporterMetricKey, otelExporterMetricDefaultValue⟩] ++
            [⟨otelPythonDistro, otelPythonDistroDefaultValue⟩,
             ⟨otelPythonConfigurator, otelPythonConfiguratorDefaultValue⟩])) ∨
       ((getDefaultInstrumentation instEnv0).map (fun inst => inst.spec.java.env) =
          .ok ([⟨otelSampleEnabledKey, otelSampleEnabledDefaultValue⟩,
            ⟨otelTracesSamplerArgKey, otelTracesSamplerArgDefaultValue⟩,
            ⟨otelTracesSamplerKey, otelTracesSamplerDefaultValue⟩,
            ⟨otelExporterOtlpProtocolKey, otelExporterOtlpProtocolValue⟩,
            ⟨otelExporterTracesEndpointKey, otelExporterTracesEndpointDefaultValue⟩,
            ⟨otelExporterSmpEndpointKey, otelExporterSmpEndpointDefaultValue⟩,
            ⟨otelExporterMetricKey, otelExporterMetricDefaultValue⟩] ++
            [⟨otelPythonDistro, otelPythonDistroDefaultValue⟩,
             ⟨otelPythonConfigurator, otelPythonConfiguratorDefaultValue⟩]) ∧
        (getDefaultInstrumentation instEnv0).map (fun inst => inst.spec.python.env) =
          .ok [⟨otelSampleEnabledKey, otelSampleEnabledDefaultValue⟩,
            ⟨otelTracesSamplerArgKey, otelTracesSamplerArgDefaultValue⟩,
            ⟨otelTracesSamplerKey, otelTracesSamplerDefaultValue⟩,
            ⟨otelExporterOtlpProtocolKey, otelExporterOtlpProtocolValue⟩,
            ⟨otelExporterTracesEndpointKey, otelExporterTracesEndpointDefaultValue⟩,
            ⟨otelExporterSmpEndpointKey, otelExporterSmpEndpointDefaultValue⟩,
            ⟨otelExporterMetricKey, otelExporterMetricDefaultValue⟩])) := by
  rintro (⟨h1, h2⟩ | ⟨h1, h2⟩)
  · exact absurd (Except.ok.inj h2) (by decide)
  · exact absurd (Except.ok.inj h2) (by decide)

/-- C2 (amended): with both image references present the builder returns
the fixed descriptor whose java block carries, in order, the seven literal
entries (sampler enablement, sampler argument endpoint, sampler selection,
exporter protocol, trace-exporter endpoint, secondary collector endpoint,
metrics-exporter disablement) and whose python block carries the same
entries except sampler selection (six of the seven, in the same relative
order) followed by the two distribution/configurator entries; only the
python block carries those two. -/
theorem C2_default_instrumentation_env (lookupEnv : String → Option String)
    (javaImage pythonImage : String)
    (hj : lookupEnv "AUTO_INSTRUMENTATION_JAVA" = some javaImage)
    (hp : lookupEnv "AUTO_INSTRUMENTATION_PYTHON" = some pythonImage) :
    getDefaultInstrumentation lookupEnv = .ok
      { apiVersion := defaultAPIVersion
        kind := defaultKind
        name := defaultInstrumenation
        ns := defaultNamespace
        spec :=
          { propagators := [Propagator.TraceContext, Propagator.Baggage,
              Propagator.B3, Propagator.XRay]
            java :=
              { image := javaImage
                env :=
                  [⟨otelSampleEnabledKey, otelSampleEnabledDefaultValue⟩,
                   ⟨otelTracesSamplerArgKey, otelTracesSamplerArgDefaultValue⟩,
                   ⟨otelTracesSamplerKey, otelTracesSamplerDefaultValue⟩,
                   ⟨otelExporterOtlpProtocolKey, otelExporterOtlpProtocolValue⟩,
                   ⟨otelExporterTracesEndpointKey, otelExporterTracesEndpointDefaultValue⟩,
                   ⟨otelExporterSmpEndpointKey, otelExporterSmpEndpointDefaultValue⟩,
                   ⟨otelExporterMetricKey, otelExporterMetricDefaultValue⟩] }
            python :=
              { image := pythonImage
                env :=
                  [⟨otelSampleEnabledKey, otelSampleEnabledDefaultValue⟩,
                   ⟨otelTracesSamplerArgKey, otelTracesSamplerArgDefaultValue⟩,
                   ⟨otelExporterOtlpProtocolKey, otelExporterOtlpProtocolValue⟩,
                   ⟨otelExporterTracesEndpointKey, otelExporterTracesEndpointDefaultValue⟩,
                   ⟨otelExporterSmpEndpointKey, otelExporterSmpEndpointDefaultValue⟩,
                   ⟨otelExporterMetricKey, otelExporterMetricDefaultValue⟩,
                   ⟨otelPythonDistro, otelPythonDistroDefaultValue⟩,
                   ⟨otelPythonConfigurator, otelPythonConfiguratorDefaultValue⟩] } } } := by
  unfold getDefaultInstrumentation
  rw [hj, hp]

/-- Witness: the amended description holds on a concrete environment
carrying both images. -/
theorem C2_default_instrumentation_env_witness :
    ∃ inst, getDefaultInstrumentation instEnv0 = .ok inst :=
  ⟨_, C2_default_instrumentation_env instEnv0 "java-image" "python-image" rfl rfl⟩

/-- Witness: on a DaemonSet specification with one declared port the
headless result carries the headless label. -/
theorem C8_headless_derivation_witness :
    ((HeadlessService [] params1).1.map (fun h => h.labels headlessLabel)) =
      some (some headlessExists) := by
  cases hs : (Service [] params1).1 with
  | none =>
    have hcon : (Service [] params1).1.isSome = true := rfl
    rw [hs] at hcon
    cases hcon
  | some s =>
    obtain ⟨h, heq, _, _, hlab, _, _⟩ := (C8_headless_derivation [] params1).2 s hs
    rw [heq, Option.map_some']
    rw [hlab]
